import Mathlib

/-!
# Verification of the universal-contributor Workspace Orchestrator

Shallow embedding, in Lean 4, of the parts of the `universal-contributor`
repository that the specification's claims are about:

* `packages/shared/src/docker/index.ts` — the Docker daemon client
  (`processExecOutput`, the NDJSON build-stream handling of
  `buildImageFromDockerfile`);
* `apps/db-api/src/routes/workspaces.ts` — the workspace runner
  (`executeOpenCodeInBackground` exit handling, the `spawn` branch-name and
  `expires_at` logic, the `destroy` endpoint);
* `apps/db-api/src/routes/webhooks.ts` — the GitHub event integrator
  (`verifyGitHubSignature`, `POST /webhooks/github`);
* `packages/shared/src/db/index.ts` — the relevant table shapes.

Machine integers are modelled as `Nat` (frame sizes are below `2 ^ 32`, as
`readUInt32BE` guarantees); byte buffers as `List Nat`; SQL tables as Lean
lists of row structures; `datetime('now')` / `Date.now()` as an explicit
`now : Nat` parameter threaded through each handler; JavaScript truthiness
of optional strings and numbers is modelled explicitly.
-/

deriving instance DecidableEq for Except

/-- JavaScript truthiness of a nullable string: `null`/`undefined` and the
empty string are falsy. -/
def truthyStr : Option String → Bool
  | none => false
  | some s => s ≠ ""

/-- JavaScript truthiness of a nullable number (only `0` and `null` are
falsy among the values that occur here). -/
def truthyNum : Option Nat → Bool
  | none => false
  | some n => n ≠ 0

/-! ## Docker multiplexed exec frames (`processExecOutput`)

Source: `packages/shared/src/docker/index.ts`, lines 572–606.  The function
walks one received buffer: an 8-byte header (byte 0 = stream type, bytes
4–7 = 32-bit big-endian frame length) is followed by that many payload
bytes; type 2 goes to the stderr sink, anything else to the stdout sink;
a buffer that ends mid-frame flushes the remaining bytes to the sink named
by the pending header (or to stdout when not even a full header is left)
and stops.  Each received chunk is decoded by a fresh call, so decoding
resumes from the next read. -/

/-- `Buffer.readUInt32BE` on four bytes. -/
def readUInt32BE (b0 b1 b2 b3 : Nat) : Nat :=
  ((b0 * 256 + b1) * 256 + b2) * 256 + b3

/-- Big-endian 4-byte encoding of a 32-bit length. -/
def be32 (n : Nat) : List Nat :=
  [n / 2 ^ 24 % 256, n / 2 ^ 16 % 256, n / 2 ^ 8 % 256, n % 256]

theorem readUInt32BE_be32 (n : Nat) (h : n < 2 ^ 32) :
    readUInt32BE (n / 2 ^ 24 % 256) (n / 2 ^ 16 % 256) (n / 2 ^ 8 % 256)
      (n % 256) = n := by
  unfold readUInt32BE
  omega

/-- `processExecOutput` from `docker/index.ts:572`.  The result pair lists,
in order, the byte sequences written to the stdout sink and to the stderr
sink by one call. -/
def processExecOutput : List Nat → List (List Nat) × List (List Nat)
  | [] => ([], [])
  | t :: _r1 :: _r2 :: _r3 :: s0 :: s1 :: s2 :: s3 :: rest =>
    let frameSize := readUInt32BE s0 s1 s2 s3
    if rest.length < frameSize then
      -- a short read: flush the pending bytes to the header's sink
      if t == 2 then ([], [rest]) else ([rest], [])
    else
      let out := processExecOutput (rest.drop frameSize)
      if t == 2 then (out.1, rest.take frameSize :: out.2)
      else (rest.take frameSize :: out.1, out.2)
  | short => ([short], [])
termination_by data => data.length
decreasing_by
  simp only [List.length_drop, List.length_cons]
  omega

/-- One multiplexed frame: header byte `t`, three reserved zero bytes, the
big-endian payload length, then the payload. -/
def encodeFrame (t : Nat) (payload : List Nat) : List Nat :=
  t :: 0 :: 0 :: 0 :: (be32 payload.length ++ payload)

/-- A whole buffer of complete frames. -/
def encodeFrames (frames : List (Nat × List Nat)) : List Nat :=
  (frames.map fun f => encodeFrame f.1 f.2).flatten

/-- The payloads a list of frames carries for the stdout sink (stream type
is anything but 2). -/
def stdoutPayloads (frames : List (Nat × List Nat)) : List (List Nat) :=
  (frames.filter fun f => f.1 ≠ 2).map Prod.snd

/-- The payloads a list of frames carries for the stderr sink (type 2). -/
def stderrPayloads (frames : List (Nat × List Nat)) : List (List Nat) :=
  (frames.filter fun f => f.1 = 2).map Prod.snd

example : processExecOutput (encodeFrames [(1, [10, 11]), (2, [12])]) =
    ([[10, 11]], [[12]]) := by
  simp [processExecOutput, encodeFrames, encodeFrame, be32, readUInt32BE]

example : processExecOutput ((encodeFrames [(1, [10, 11])] ++
    encodeFrame 2 [7, 8, 9]).take 19) = ([[10, 11]], [[7]]) := by
  simp [processExecOutput, encodeFrames, encodeFrame, be32, readUInt32BE]

theorem stdoutPayloads_cons (t : Nat) (p : List Nat) (fs : List (Nat × List Nat)) :
    stdoutPayloads ((t, p) :: fs) =
      if t = 2 then stdoutPayloads fs else p :: stdoutPayloads fs := by
  by_cases h : t = 2 <;> simp [stdoutPayloads, List.filter, h]

theorem stderrPayloads_cons (t : Nat) (p : List Nat) (fs : List (Nat × List Nat)) :
    stderrPayloads ((t, p) :: fs) =
      if t = 2 then p :: stderrPayloads fs else stderrPayloads fs := by
  by_cases h : t = 2 <;> simp [stderrPayloads, List.filter, h]

/-- Decoding a buffer that starts with well-formed complete frames: each
frame's payload is taken whole and dispatched, then decoding continues on
whatever follows. -/
theorem processExecOutput_frames_append (frames : List (Nat × List Nat))
    (hlen : ∀ f ∈ frames, (f.2 : List Nat).length < 2 ^ 32)
    (suffix : List Nat) :
    processExecOutput (encodeFrames frames ++ suffix) =
      (stdoutPayloads frames ++ (processExecOutput suffix).1,
       stderrPayloads frames ++ (processExecOutput suffix).2) := by
  induction frames with
  | nil => simp [encodeFrames, stdoutPayloads, stderrPayloads]
  | cons f fs ih =>
    obtain ⟨t, p⟩ := f
    have hp : p.length < 2 ^ 32 := hlen (t, p) (by simp)
    have hfs : ∀ f ∈ fs, (f.2 : List Nat).length < 2 ^ 32 := by
      intro f hf
      exact hlen f (by simp [hf])
    have harr : encodeFrames ((t, p) :: fs) ++ suffix =
        t :: 0 :: 0 :: 0 :: (p.length / 2 ^ 24 % 256) ::
          (p.length / 2 ^ 16 % 256) :: (p.length / 2 ^ 8 % 256) ::
          (p.length % 256) :: (p ++ (encodeFrames fs ++ suffix)) := by
      simp [encodeFrames, encodeFrame, be32]
    rw [harr, processExecOutput]
    rw [readUInt32BE_be32 p.length hp]
    have hnotshort : ¬ (p ++ (encodeFrames fs ++ suffix)).length < p.length := by
      simp
    rw [if_neg hnotshort]
    have htake : (p ++ (encodeFrames fs ++ suffix)).take p.length = p :=
      List.take_left p (encodeFrames fs ++ suffix)
    have hdrop : (p ++ (encodeFrames fs ++ suffix)).drop p.length =
        encodeFrames fs ++ suffix :=
      List.drop_left p (encodeFrames fs ++ suffix)
    rw [htake, hdrop, ih hfs, stdoutPayloads_cons, stderrPayloads_cons]
    by_cases ht : t = 2 <;> simp [ht]

/-- Decoding a buffer holding just a frame header whose announced length
exceeds the bytes that follow (a short read): the fragment goes whole to
the sink the header names, and decoding stops. -/
theorem processExecOutput_truncated (t n : Nat) (frag : List Nat)
    (hn : n < 2 ^ 32) (hfrag : frag.length < n) :
    processExecOutput (t :: 0 :: 0 :: 0 :: (be32 n ++ frag)) =
      if t = 2 then ([], [frag]) else ([frag], []) := by
  have harr : t :: 0 :: 0 :: 0 :: (be32 n ++ frag) =
      t :: 0 :: 0 :: 0 :: (n / 2 ^ 24 % 256) :: (n / 2 ^ 16 % 256) ::
        (n / 2 ^ 8 % 256) :: (n % 256) :: frag := by
    simp [be32]
  rw [harr, processExecOutput, readUInt32BE_be32 n hn, if_pos hfrag]
  by_cases ht : t = 2 <;> simp [ht]

/-- C7: for every buffer of multiplexed exec output, the decoder reads
repeated 8-byte headers (byte 0 the stream type, bytes 4–7 a 32-bit
big-endian frame length), dispatches each complete frame's payload to the
stderr sink when the type is 2 and to the stdout sink otherwise, and when
the buffer ends mid-frame it writes the partial payload to the sink the
pending header names and stops; the next read is decoded by a fresh call,
so decoding resumes there. -/
theorem C7_exec_frame_decoder (frames : List (Nat × List Nat))
    (hlen : ∀ f ∈ frames, (f.2 : List Nat).length < 2 ^ 32)
    (t n : Nat) (frag : List Nat) (hn : n < 2 ^ 32)
    (hfrag : frag.length < n) :
    processExecOutput (encodeFrames frames) =
      (stdoutPayloads frames, stderrPayloads frames)
    ∧ processExecOutput
        (encodeFrames frames ++ (t :: 0 :: 0 :: 0 :: (be32 n ++ frag))) =
      (if t = 2 then (stdoutPayloads frames, stderrPayloads frames ++ [frag])
       else (stdoutPayloads frames ++ [frag], stderrPayloads frames)) := by
  constructor
  · have h := processExecOutput_frames_append frames hlen []
    simpa [processExecOutput] using h
  · rw [processExecOutput_frames_append frames hlen _,
      processExecOutput_truncated t n frag hn hfrag]
    by_cases ht : t = 2 <;> simp [ht]

/-- Witness for C7 at a concrete buffer: two complete frames (stdout then
stderr) followed by a stderr frame truncated after one of its three
announced payload bytes. -/
theorem C7_exec_frame_decoder_witness :
    ((∀ f ∈ [((1 : Nat), [10, 11]), (2, [12])],
        (f.2 : List Nat).length < 2 ^ 32) ∧ (3 : Nat) < 2 ^ 32 ∧
      ([7] : List Nat).length < 3) ∧
    (processExecOutput (encodeFrames [(1, [10, 11]), (2, [12])]) =
        (stdoutPayloads [(1, [10, 11]), (2, [12])],
         stderrPayloads [(1, [10, 11]), (2, [12])])
    ∧ processExecOutput (encodeFrames [(1, [10, 11]), (2, [12])] ++
          (2 :: 0 :: 0 :: 0 :: (be32 3 ++ [7]))) =
      (if (2 : Nat) = 2 then
        (stdoutPayloads [(1, [10, 11]), (2, [12])],
         stderrPayloads [(1, [10, 11]), (2, [12])] ++ [[7]])
       else
        (stdoutPayloads [(1, [10, 11]), (2, [12])] ++ [[7]],
         stderrPayloads [(1, [10, 11]), (2, [12])]))) :=
  ⟨⟨by decide, by decide, by decide⟩,
    C7_exec_frame_decoder [(1, [10, 11]), (2, [12])] (by decide) 2 3 [7]
      (by decide) (by decide)⟩

/-! ## Data model

Rows of the tables created in `packages/shared/src/db/index.ts` (plus the
`pr_url` and `dockerfile` columns the db-api adds to `workspaces`), keeping
the columns the claims touch.  `TEXT` timestamps are modelled as `Nat`. -/

/-- The structured `WorkspaceError` JSON blob
(`apps/db-api/src/routes/workspaces.ts:337`). -/
structure WorkspaceError where
  type : String
  message : String
  logs : Option String := none
  attempt : Option Nat := none
  duration : Option Nat := none
  timestamp : Nat
deriving DecidableEq, Repr

/-- A `workspaces` row (`db/index.ts:164` plus db-api columns). -/
structure Workspace where
  id : Nat
  agent_id : Nat
  agent_run_id : Option Nat
  repository_id : Nat
  issue_id : Option Nat
  container_id : Option String
  status : String
  branch_name : Option String
  base_branch : String := "main"
  timeout_minutes : Nat := 60
  expires_at : Option Nat
  created_at : Nat
  destroyed_at : Option Nat := none
  error_message : Option WorkspaceError := none
  pr_url : Option String := none
deriving DecidableEq, Repr

/-- An `issues` row (`db/index.ts:47`), restricted to the columns the
claims touch. -/
structure Issue where
  id : Nat
  repository_id : Nat
  github_issue_number : Nat
  status : String
deriving DecidableEq, Repr

/-- A `contributions` row (`db/index.ts:85`). -/
structure Contribution where
  id : Nat
  agent_run_id : Nat
  issue_id : Nat
  pr_url : Option String
  pr_number : Option Nat
  branch_name : Option String
  status : String
  created_at : Nat
  updated_at : Nat
deriving DecidableEq, Repr

/-- A `webhooks` row (`db/index.ts:104`): `contribution_id` is a nullable
foreign key with no `NOT NULL` constraint. -/
structure WebhookRow where
  id : Nat
  contribution_id : Option Nat
  event_type : String
  payload : String
  action : Option String
  processed : Bool := false
  received_at : Nat
deriving DecidableEq, Repr

/-- A `workspace_logs` row. -/
structure LogRow where
  id : Nat
  workspace_id : Nat
  line : String
  stream : String
deriving DecidableEq, Repr

/-- The persistent store: one list per table, plus the next autoincrement
rowid for the tables the handlers insert into. -/
structure DB where
  workspaces : List Workspace
  issues : List Issue
  contributions : List Contribution
  webhooks : List WebhookRow
  logs : List LogRow
  nextContributionId : Nat := 1
  nextWebhookId : Nat := 1
  nextLogId : Nat := 1
  nextWorkspaceId : Nat := 1
deriving DecidableEq, Repr

/-- `UPDATE … SET … WHERE q`: rewrite every row matching `q` with `f`. -/
def updateWhere {α : Type} (q : α → Bool) (f : α → α) (l : List α) : List α :=
  l.map fun a => if q a then f a else a

/-- `SELECT` after `UPDATE`: when the update function cannot change whether
a row satisfies the selection predicate, the first selected row after the
update is the (possibly rewritten) first selected row before it. -/
theorem find?_updateWhere {α : Type} (p q : α → Bool) (f : α → α)
    (hpf : ∀ a, p (f a) = p a) :
    ∀ (l : List α) (c : α), l.find? p = some c →
      (updateWhere q f l).find? p = some (if q c then f c else c) := by
  intro l
  induction l with
  | nil => intro c hc; simp at hc
  | cons a l ih =>
    intro c hc
    by_cases hpa : p a
    · rw [List.find?_cons_of_pos _ hpa] at hc
      injection hc with hc
      subst hc
      by_cases hq : q a
      · have : p (f a) := by rw [hpf]; exact hpa
        simp [updateWhere, hq, List.find?_cons_of_pos _ this]
      · simp [updateWhere, hq, List.find?_cons_of_pos _ hpa]
    · rw [List.find?_cons_of_neg _ hpa] at hc
      by_cases hq : q a
      · have : ¬ p (f a) = true := by rw [hpf]; exact hpa
        have ht := ih c hc
        simpa [updateWhere, hq, List.find?_cons_of_neg _ this] using ht
      · have ht := ih c hc
        simpa [updateWhere, hq, List.find?_cons_of_neg _ hpa] using ht

/-! ## `POST /workspaces/:id/destroy`

Source: `apps/db-api/src/routes/workspaces.ts`, lines 983–1022.  The Docker
daemon is modelled by the list of container ids it still knows.  `stop`
errors are swallowed by the source (`docker/index.ts:461`); the forced
`DELETE /containers/{id}` fails when the daemon no longer knows the id. -/

/-- `stopAndRemoveContainer` from `docker/index.ts:457`: stopping never
fails the call; removal errors (container unknown) propagate. -/
def stopAndRemoveContainer (docker : List String) (cid : String) :
    Except String (List String) :=
  if cid ∈ docker then .ok (docker.erase cid)
  else .error "No such container"

/-- `UPDATE workspaces SET status = 'destroyed', destroyed_at =
datetime('now') WHERE id = ?` — the statement both branches of the destroy
handler run. -/
def stampDestroyed (db : DB) (wsid : Nat) (now : Nat) : DB :=
  { db with
      workspaces := updateWhere (fun x => x.id == wsid)
        (fun x => { x with status := "destroyed", destroyed_at := some now })
        db.workspaces }

/-- The destroy handler.  Returns the handler outcome (`.ok` for the
success body, `.error` for a thrown error), the store, and the daemon
state. -/
def destroyWorkspace (db : DB) (docker : List String) (wsid : Nat)
    (now : Nat) : Except String Unit × DB × List String :=
  match db.workspaces.find? (fun w => w.id == wsid) with
  | none => (.error "Workspace not found", db, docker)
  | some w =>
    match w.container_id with
    | none => (.ok (), stampDestroyed db wsid now, docker)
    | some cid =>
      match stopAndRemoveContainer docker cid with
      | .ok docker2 => (.ok (), stampDestroyed db wsid now, docker2)
      | .error e => (.error ("Failed to destroy container: " ++ e), db, docker)

/-- A workspace row with no recorded container id. -/
def wsNoContainer : Workspace :=
  { id := 1, agent_id := 1, agent_run_id := none, repository_id := 1,
    issue_id := none, container_id := none, status := "running",
    branch_name := none, expires_at := none, created_at := 0 }

/-- Store holding just `wsNoContainer`. -/
def dbC3 : DB :=
  { workspaces := [wsNoContainer], issues := [], contributions := [],
    webhooks := [], logs := [] }

/-- C3 counterexample: destroying the same workspace twice (at times 5 and
then 9) returns success both times but re-stamps `destroyed_at` with the
time of the second call, so the second destroy does change
`destroyed_at`. -/
theorem C3_counterexample :
    (destroyWorkspace dbC3 [] 1 5).1 = .ok () ∧
    ((destroyWorkspace dbC3 [] 1 5).2.1.workspaces.map
      (fun x => x.destroyed_at)) = [some 5] ∧
    (destroyWorkspace (destroyWorkspace dbC3 [] 1 5).2.1 [] 1 9).1 =
      .ok () ∧
    ((destroyWorkspace (destroyWorkspace dbC3 [] 1 5).2.1 [] 1
        9).2.1.workspaces.map (fun x => x.destroyed_at)) = [some 9] := by
  decide

/-- C3 (amended): for a workspace with no recorded container id, destroy
always returns success and (re)writes `status = 'destroyed'` and
`destroyed_at = now`; in particular a second destroy succeeds but stamps
`destroyed_at` with the second call's time instead of leaving it
unchanged. -/
theorem C3_destroy_idempotent_success_restamps (db : DB)
    (docker : List String) (wsid : Nat) (w : Workspace) (t1 t2 : Nat)
    (hw : db.workspaces.find? (fun x => x.id == wsid) = some w)
    (hc : w.container_id = none) :
    (destroyWorkspace db docker wsid t1).1 = .ok () ∧
    ((destroyWorkspace db docker wsid t1).2.1.workspaces.find?
        (fun x => x.id == wsid)).map (fun x => (x.status, x.destroyed_at)) =
      some ("destroyed", some t1) ∧
    (destroyWorkspace (destroyWorkspace db docker wsid t1).2.1 docker wsid
      t2).1 = .ok () ∧
    ((destroyWorkspace (destroyWorkspace db docker wsid t1).2.1 docker wsid
        t2).2.1.workspaces.find? (fun x => x.id == wsid)).map
      (fun x => (x.status, x.destroyed_at)) = some ("destroyed", some t2) := by
  have hpw := List.find?_some hw
  have h1 : destroyWorkspace db docker wsid t1 =
      (.ok (), stampDestroyed db wsid t1, docker) := by
    simp [destroyWorkspace, hw, hc]
  have hfind1 : (stampDestroyed db wsid t1).workspaces.find?
      (fun x => x.id == wsid) =
      some { w with status := "destroyed", destroyed_at := some t1 } := by
    have h := find?_updateWhere (fun x => x.id == wsid)
      (fun x => x.id == wsid)
      (fun x => { x with status := "destroyed", destroyed_at := some t1 })
      (fun a => rfl) db.workspaces w hw
    simpa [stampDestroyed, hpw] using h
  have h2 : destroyWorkspace (stampDestroyed db wsid t1) docker wsid t2 =
      (.ok (), stampDestroyed (stampDestroyed db wsid t1) wsid t2, docker) := by
    simp [destroyWorkspace, hfind1, hc]
  have hfind2 : (stampDestroyed (stampDestroyed db wsid t1)
        wsid t2).workspaces.find? (fun x => x.id == wsid) =
      some { w with status := "destroyed", destroyed_at := some t2 } := by
    have h := find?_updateWhere (fun x => x.id == wsid)
      (fun x => x.id == wsid)
      (fun x => { x with status := "destroyed", destroyed_at := some t2 })
      (fun a => rfl) (stampDestroyed db wsid t1).workspaces _ hfind1
    simpa [stampDestroyed, hpw] using h
  refine ⟨by rw [h1], ?_, ?_, ?_⟩
  · rw [h1]
    simp [hfind1]
  · rw [h1]
    simpa using congrArg Prod.fst h2
  · rw [h1]
    simp only []
    rw [h2]
    simp [hfind2]

/-- Witness for the amended C3 at `dbC3`, destroy times 5 then 9. -/
theorem C3_destroy_idempotent_success_restamps_witness :
    (dbC3.workspaces.find? (fun x => x.id == 1) = some wsNoContainer ∧
      wsNoContainer.container_id = none) ∧
    ((destroyWorkspace dbC3 [] 1 5).1 = .ok () ∧
    ((destroyWorkspace dbC3 [] 1 5).2.1.workspaces.find?
        (fun x => x.id == 1)).map (fun x => (x.status, x.destroyed_at)) =
      some ("destroyed", some 5) ∧
    (destroyWorkspace (destroyWorkspace dbC3 [] 1 5).2.1 [] 1 9).1 =
      .ok () ∧
    ((destroyWorkspace (destroyWorkspace dbC3 [] 1 5).2.1 [] 1
        9).2.1.workspaces.find? (fun x => x.id == 1)).map
      (fun x => (x.status, x.destroyed_at)) = some ("destroyed", some 9)) :=
  ⟨⟨by decide, by decide⟩,
    C3_destroy_idempotent_success_restamps dbC3 [] 1 wsNoContainer 5 9
      (by decide) (by decide)⟩

/-- A running workspace whose container the daemon still knows. -/
def wsRunning : Workspace :=
  { id := 1, agent_id := 1, agent_run_id := some 1, repository_id := 1,
    issue_id := some 10, container_id := some "c1", status := "running",
    branch_name := some "fix/issue-42", expires_at := some 100,
    created_at := 0 }

/-- An issue mid-fix. -/
def issueFixing : Issue :=
  { id := 10, repository_id := 1, github_issue_number := 42,
    status := "fixing" }

/-- Store holding `wsRunning` and its issue. -/
def dbC4 : DB :=
  { workspaces := [wsRunning], issues := [issueFixing], contributions := [],
    webhooks := [], logs := [] }

/-- C4 counterexample: cancelling (POST destroy) a running workspace sets
its status to `'destroyed'`, not `'cancelled'`, and leaves the owning
issue's status untouched (here `'fixing'`, not reset to `'open'`). -/
theorem C4_counterexample :
    (destroyWorkspace dbC4 ["c1"] 1 7).1 = .ok () ∧
    ((destroyWorkspace dbC4 ["c1"] 1 7).2.1.workspaces.map
      (fun x => x.status)) = ["destroyed"] ∧
    ((destroyWorkspace dbC4 ["c1"] 1 7).2.1.issues.map
      (fun i => i.status)) = ["fixing"] := by
  decide

/-- C4 (amended): for every workspace whose recorded container the daemon
still knows, the cancel operation (POST destroy) succeeds, transitions the
workspace to `'destroyed'` (not `'cancelled'`), stamps `destroyed_at`,
force-removes the container from the daemon, and leaves the issues and
contributions tables unchanged (the browser UI, not this endpoint, patches
the issue back to `'open'`). -/
theorem C4_destroy_removes_container_keeps_issue (db : DB)
    (docker : List String) (wsid : Nat) (w : Workspace) (cid : String)
    (now : Nat)
    (hw : db.workspaces.find? (fun x => x.id == wsid) = some w)
    (hc : w.container_id = some cid) (hin : cid ∈ docker) :
    (destroyWorkspace db docker wsid now).1 = .ok () ∧
    ((destroyWorkspace db docker wsid now).2.1.workspaces.find?
        (fun x => x.id == wsid)).map (fun x => (x.status, x.destroyed_at)) =
      some ("destroyed", some now) ∧
    (destroyWorkspace db docker wsid now).2.2 = docker.erase cid ∧
    (destroyWorkspace db docker wsid now).2.1.issues = db.issues ∧
    (destroyWorkspace db docker wsid now).2.1.contributions =
      db.contributions := by
  have hpw := List.find?_some hw
  have h1 : destroyWorkspace db docker wsid now =
      (.ok (), stampDestroyed db wsid now, docker.erase cid) := by
    simp [destroyWorkspace, hw, hc, stopAndRemoveContainer, hin]
  have hfind1 : (stampDestroyed db wsid now).workspaces.find?
      (fun x => x.id == wsid) =
      some { w with status := "destroyed", destroyed_at := some now } := by
    have h := find?_updateWhere (fun x => x.id == wsid)
      (fun x => x.id == wsid)
      (fun x => { x with status := "destroyed", destroyed_at := some now })
      (fun a => rfl) db.workspaces w hw
    simpa [stampDestroyed, hpw] using h
  rw [h1]
  refine ⟨rfl, ?_, rfl, rfl, rfl⟩
  simp [hfind1]

/-- Witness for the amended C4 at `dbC4` with the daemon knowing `c1`. -/
theorem C4_destroy_removes_container_keeps_issue_witness :
    (dbC4.workspaces.find? (fun x => x.id == 1) = some wsRunning ∧
      wsRunning.container_id = some "c1" ∧ "c1" ∈ ["c1"]) ∧
    ((destroyWorkspace dbC4 ["c1"] 1 7).1 = .ok () ∧
    ((destroyWorkspace dbC4 ["c1"] 1 7).2.1.workspaces.find?
        (fun x => x.id == 1)).map (fun x => (x.status, x.destroyed_at)) =
      some ("destroyed", some 7) ∧
    (destroyWorkspace dbC4 ["c1"] 1 7).2.2 = List.erase ["c1"] "c1" ∧
    (destroyWorkspace dbC4 ["c1"] 1 7).2.1.issues = dbC4.issues ∧
    (destroyWorkspace dbC4 ["c1"] 1 7).2.1.contributions =
      dbC4.contributions) :=
  ⟨⟨by decide, by decide, by decide⟩,
    C4_destroy_removes_container_keeps_issue dbC4 ["c1"] 1 wsRunning "c1" 7
      (by decide) (by decide) (by decide)⟩

/-! ## `POST /webhooks/github`

Source: `apps/db-api/src/routes/webhooks.ts`, lines 183–271 (handler) and
30–43 (`verifyGitHubSignature`).  The HMAC-SHA256 primitive is passed in as
a function `hmacHex : secret → payload → hex digest`; `timingSafeEqual`
throws on buffers of different length and the catch returns `false`, so the
verification's net result is equality with the expected
`sha256=<hex>` string.  `JSON.parse` of the raw body is modelled by the
request carrying its parse result (`none` = invalid JSON). -/

/-- A parsed `pull_request` object (the fields the handler reads). -/
structure GhPR where
  number : Nat
  html_url : String
  merged : Bool
deriving DecidableEq, Repr

/-- A parsed webhook payload (the fields the handler reads). -/
structure GhPayload where
  action : Option String
  pull_request : Option GhPR
deriving DecidableEq, Repr

/-- An inbound request to the endpoint. -/
structure GhRequest where
  rawBody : String
  signature : Option String
  event : Option String
  json : Option GhPayload
deriving DecidableEq, Repr

/-- `verifyGitHubSignature` from `webhooks.ts:30`. -/
def verifyGitHubSignature (hmacHex : String → String → String)
    (payload : String) (signature : Option String) (secret : String) :
    Bool :=
  match signature with
  | none => false
  | some s =>
    -- `if (!signature) return false`: the empty string is falsy too
    if s = "" then false
    else s == "sha256=" ++ hmacHex secret payload

/-- The `POST /webhooks/github` handler (`webhooks.ts:183`).  Returns the
HTTP status and the store.  A missing `x-github-event` header would make
the audit `INSERT` violate the `event_type NOT NULL` constraint and throw,
surfacing as a 500 with no row inserted. -/
def githubWebhookHandler (hmacHex : String → String → String)
    (secret : Option String) (req : GhRequest) (now : Nat) (db : DB) :
    Nat × DB :=
  if ¬ truthyStr secret then (500, db)
  else if ¬ verifyGitHubSignature hmacHex req.rawBody req.signature
      (secret.getD "") then (401, db)
  else
    match req.json with
    | none => (400, db)
    | some payload =>
      match req.event with
      | none => (500, db)
      | some evt =>
        let db1 := { db with
          webhooks := db.webhooks ++
            [{ id := db.nextWebhookId, contribution_id := none,
               event_type := evt, payload := req.rawBody,
               action := payload.action, received_at := now }],
          nextWebhookId := db.nextWebhookId + 1 }
        if evt = "pull_request" then
          match payload.pull_request with
          | none => (500, db1)
          | some pr =>
            match db1.contributions.find? (fun c =>
                c.pr_url == some pr.html_url ||
                c.pr_number == some pr.number) with
            | none => (200, db1)
            | some contribution =>
              if payload.action == some "closed" && pr.merged then
                (200, { db1 with
                  issues := updateWhere
                    (fun i => i.id == contribution.issue_id)
                    (fun i => { i with status := "fixed" }) db1.issues,
                  contributions := updateWhere
                    (fun c => c.id == contribution.id)
                    (fun c =>
                      { c with status := "merged", updated_at := now })
                    db1.contributions })
              else if payload.action == some "closed" && !pr.merged then
                (200, { db1 with
                  contributions := updateWhere
                    (fun c => c.id == contribution.id)
                    (fun c =>
                      { c with status := "closed", updated_at := now })
                    db1.contributions })
              else (200, db1)
        else (200, db1)

/-- C5: if the webhook shared secret is not configured the handler returns
500; if the `x-hub-signature-256` header is missing, or does not equal
`sha256=` followed by the HMAC-SHA256 hex digest of the raw body, the
handler returns 401; in either failure case the returned store is the
input store, so no state change is made to webhooks, issues, or
contributions. -/
theorem C5_webhook_auth_failures (hmacHex : String → String → String)
    (secret : Option String) (req : GhRequest) (now : Nat) (db : DB) :
    (secret = none →
      githubWebhookHandler hmacHex secret req now db = (500, db)) ∧
    (∀ s, secret = some s → s ≠ "" →
      verifyGitHubSignature hmacHex req.rawBody req.signature s = false →
      githubWebhookHandler hmacHex secret req now db = (401, db)) ∧
    (∀ s, verifyGitHubSignature hmacHex req.rawBody none s = false) ∧
    (∀ s sig, sig ≠ "sha256=" ++ hmacHex s req.rawBody →
      verifyGitHubSignature hmacHex req.rawBody (some sig) s = false) := by
  refine ⟨?_, ?_, ?_, ?_⟩
  · intro h
    subst h
    simp [githubWebhookHandler, truthyStr]
  · intro s hsec hne hv
    subst hsec
    simp [githubWebhookHandler, truthyStr, hne, hv]
  · intro s
    rfl
  · intro s sig hne
    by_cases h0 : sig = "" <;>
      simp [verifyGitHubSignature, h0, hne]

/-- An empty store. -/
def dbEmpty : DB :=
  { workspaces := [], issues := [], contributions := [], webhooks := [],
    logs := [] }

/-- A concrete stand-in for the HMAC-SHA256 hex primitive (the handler is
parametric in it). -/
def hmacDemo : String → String → String :=
  fun secret payload => secret ++ "." ++ payload

/-- A request carrying a signature that does not verify. -/
def reqBadSig : GhRequest :=
  { rawBody := "ping-body", signature := some "sha256=wrong",
    event := some "ping",
    json := some { action := none, pull_request := none } }

/-- Witness for C5: a missing secret yields 500 and a wrong signature
yields 401, both leaving the store untouched. -/
theorem C5_webhook_auth_failures_witness :
    (githubWebhookHandler hmacDemo none reqBadSig 3 dbEmpty =
      (500, dbEmpty)) ∧
    (githubWebhookHandler hmacDemo (some "k") reqBadSig 3 dbEmpty =
      (401, dbEmpty)) :=
  ⟨(C5_webhook_auth_failures hmacDemo none reqBadSig 3 dbEmpty).1 rfl,
   (C5_webhook_auth_failures hmacDemo (some "k") reqBadSig 3 dbEmpty).2.1
     "k" rfl (by decide) (by decide)⟩

/-- Effect of one validly signed `pull_request closed+merged` delivery that
matches a contribution: 200, issue of the matched contribution set to
`fixed`, the contribution set to `merged`, webhook row appended. -/
theorem githubWebhookHandler_merged_eq (hmacHex : String → String → String)
    (s : String) (req : GhRequest) (pr : GhPR) (c : Contribution)
    (now : Nat) (db : DB) (hs : s ≠ "")
    (hsig : verifyGitHubSignature hmacHex req.rawBody req.signature s = true)
    (hjson : req.json =
      some { action := some "closed", pull_request := some pr })
    (hevent : req.event = some "pull_request")
    (hmerged : pr.merged = true)
    (hc : db.contributions.find? (fun x =>
      x.pr_url == some pr.html_url || x.pr_number == some pr.number) =
      some c) :
    (githubWebhookHandler hmacHex (some s) req now db).1 = 200 ∧
    (githubWebhookHandler hmacHex (some s) req now db).2.issues =
      updateWhere (fun i => i.id == c.issue_id)
        (fun i => { i with status := "fixed" }) db.issues ∧
    (githubWebhookHandler hmacHex (some s) req now db).2.contributions =
      updateWhere (fun x => x.id == c.id)
        (fun x => { x with status := "merged", updated_at := now })
        db.contributions := by
  simp [githubWebhookHandler, truthyStr, hs, hsig, hjson, hevent, hmerged,
    hc]

/-- C6: a validly signed `pull_request` event with `action=closed,
merged=true` whose PR URL or number matches a contribution sets that
contribution's status to `merged` and the linked issue's status to
`fixed`; processing the identical event a second time finds the same
(already updated) contribution again and leaves both statuses at `merged`
and `fixed` — the handler never reverts them. -/
theorem C6_merged_event_sets_and_idempotent
    (hmacHex : String → String → String) (s : String) (req : GhRequest)
    (pr : GhPR) (c : Contribution) (i : Issue) (now1 now2 : Nat) (db : DB)
    (hs : s ≠ "")
    (hsig : verifyGitHubSignature hmacHex req.rawBody req.signature s = true)
    (hjson : req.json =
      some { action := some "closed", pull_request := some pr })
    (hevent : req.event = some "pull_request")
    (hmerged : pr.merged = true)
    (hc : db.contributions.find? (fun x =>
      x.pr_url == some pr.html_url || x.pr_number == some pr.number) =
      some c)
    (hi : db.issues.find? (fun x => x.id == c.issue_id) = some i) :
    (githubWebhookHandler hmacHex (some s) req now1 db).1 = 200 ∧
    ((githubWebhookHandler hmacHex (some s) req now1
        db).2.contributions.find? (fun x =>
      x.pr_url == some pr.html_url || x.pr_number == some pr.number)).map
      (fun x => x.status) = some "merged" ∧
    ((githubWebhookHandler hmacHex (some s) req now1 db).2.issues.find?
      (fun x => x.id == c.issue_id)).map (fun x => x.status) =
      some "fixed" ∧
    ((githubWebhookHandler hmacHex (some s) req now2
        (githubWebhookHandler hmacHex (some s) req now1
          db).2).2.contributions.find? (fun x =>
      x.pr_url == some pr.html_url || x.pr_number == some pr.number)).map
      (fun x => x.status) = some "merged" ∧
    ((githubWebhookHandler hmacHex (some s) req now2
        (githubWebhookHandler hmacHex (some s) req now1
          db).2).2.issues.find? (fun x => x.id == c.issue_id)).map
      (fun x => x.status) = some "fixed" := by
  obtain ⟨h1s, h1i, h1c⟩ := githubWebhookHandler_merged_eq hmacHex s req pr
    c now1 db hs hsig hjson hevent hmerged hc
  have hiq := List.find?_some hi
  have hc1 : (githubWebhookHandler hmacHex (some s) req now1
      db).2.contributions.find? (fun x =>
        x.pr_url == some pr.html_url || x.pr_number == some pr.number) =
      some { c with status := "merged", updated_at := now1 } := by
    rw [h1c]
    have h := find?_updateWhere (fun x =>
        x.pr_url == some pr.html_url || x.pr_number == some pr.number)
      (fun x => x.id == c.id)
      (fun x => { x with status := "merged", updated_at := now1 })
      (fun a => rfl) db.contributions c hc
    simpa using h
  have hi1 : (githubWebhookHandler hmacHex (some s) req now1
      db).2.issues.find? (fun x => x.id == c.issue_id) =
      some { i with status := "fixed" } := by
    rw [h1i]
    have h := find?_updateWhere (fun x => x.id == c.issue_id)
      (fun x => x.id == c.issue_id) (fun x => { x with status := "fixed" })
      (fun a => rfl) db.issues i hi
    simpa [hiq] using h
  obtain ⟨h2s, h2i, h2c⟩ := githubWebhookHandler_merged_eq hmacHex s req pr
    { c with status := "merged", updated_at := now1 } now2
    (githubWebhookHandler hmacHex (some s) req now1 db).2 hs hsig hjson
    hevent hmerged hc1
  have hc2 : (githubWebhookHandler hmacHex (some s) req now2
      (githubWebhookHandler hmacHex (some s) req now1
        db).2).2.contributions.find? (fun x =>
        x.pr_url == some pr.html_url || x.pr_number == some pr.number) =
      some { c with status := "merged", updated_at := now2 } := by
    rw [h2c]
    have h := find?_updateWhere (fun x =>
        x.pr_url == some pr.html_url || x.pr_number == some pr.number)
      (fun x => x.id == c.id)
      (fun x => { x with status := "merged", updated_at := now2 })
      (fun a => rfl)
      (githubWebhookHandler hmacHex (some s) req now1 db).2.contributions
      { c with status := "merged", updated_at := now1 } hc1
    simpa using h
  have hi2 : (githubWebhookHandler hmacHex (some s) req now2
      (githubWebhookHandler hmacHex (some s) req now1
        db).2).2.issues.find? (fun x => x.id == c.issue_id) =
      some { i with status := "fixed" } := by
    rw [h2i]
    have h := find?_updateWhere (fun x => x.id == c.issue_id)
      (fun x => x.id == c.issue_id) (fun x => { x with status := "fixed" })
      (fun a => rfl)
      (githubWebhookHandler hmacHex (some s) req now1 db).2.issues
      { i with status := "fixed" } hi1
    simpa [hiq] using h
  exact ⟨h1s, by simp [hc1], by simp [hi1], by simp [hc2], by simp [hi2]⟩

/-- A contribution whose PR is open. -/
def contribOpen : Contribution :=
  { id := 1, agent_run_id := 1, issue_id := 10,
    pr_url := some "https://github.com/acme/widget/pull/5",
    pr_number := some 5, branch_name := some "fix/issue-42",
    status := "pr_open", created_at := 0, updated_at := 0 }

/-- The issue `contribOpen` fixes. -/
def issuePrOpen : Issue :=
  { id := 10, repository_id := 1, github_issue_number := 42,
    status := "pr_open" }

/-- Store holding `contribOpen` and `issuePrOpen`. -/
def dbC6 : DB :=
  { workspaces := [], issues := [issuePrOpen],
    contributions := [contribOpen], webhooks := [], logs := [] }

/-- The merged-PR object of the delivered event. -/
def prMerged : GhPR :=
  { number := 5, html_url := "https://github.com/acme/widget/pull/5",
    merged := true }

/-- A validly signed `pull_request closed+merged` delivery (under
`hmacDemo` with secret `"k"`). -/
def reqMerged : GhRequest :=
  { rawBody := "merged-event-body",
    signature := some ("sha256=" ++ hmacDemo "k" "merged-event-body"),
    event := some "pull_request",
    json :=
      some { action := some "closed", pull_request := some prMerged } }

/-- Witness for C6 at `dbC6`: delivering `reqMerged` twice (at times 1
and 2). -/
theorem C6_merged_event_sets_and_idempotent_witness :
    (("k" : String) ≠ "" ∧
      verifyGitHubSignature hmacDemo reqMerged.rawBody reqMerged.signature
        "k" = true ∧
      dbC6.contributions.find? (fun x =>
        x.pr_url == some prMerged.html_url ||
        x.pr_number == some prMerged.number) = some contribOpen ∧
      dbC6.issues.find? (fun x => x.id == contribOpen.issue_id) =
        some issuePrOpen) ∧
    ((githubWebhookHandler hmacDemo (some "k") reqMerged 1 dbC6).1 = 200 ∧
    ((githubWebhookHandler hmacDemo (some "k") reqMerged 1
        dbC6).2.contributions.find? (fun x =>
      x.pr_url == some prMerged.html_url ||
      x.pr_number == some prMerged.number)).map
      (fun x => x.status) = some "merged" ∧
    ((githubWebhookHandler hmacDemo (some "k") reqMerged 1 dbC6).2.issues.find?
      (fun x => x.id == contribOpen.issue_id)).map (fun x => x.status) =
      some "fixed" ∧
    ((githubWebhookHandler hmacDemo (some "k") reqMerged 2
        (githubWebhookHandler hmacDemo (some "k") reqMerged 1
          dbC6).2).2.contributions.find? (fun x =>
      x.pr_url == some prMerged.html_url ||
      x.pr_number == some prMerged.number)).map
      (fun x => x.status) = some "merged" ∧
    ((githubWebhookHandler hmacDemo (some "k") reqMerged 2
        (githubWebhookHandler hmacDemo (some "k") reqMerged 1
          dbC6).2).2.issues.find? (fun x => x.id == contribOpen.issue_id)).map
      (fun x => x.status) = some "fixed") :=
  ⟨⟨by decide, by decide, by decide, by decide⟩,
    C6_merged_event_sets_and_idempotent hmacDemo "k" reqMerged prMerged
      contribOpen issuePrOpen 1 2 dbC6 (by decide) (by decide) (by decide)
      (by decide) (by decide) (by decide) (by decide)⟩

/-- C10: every request the handler accepts (configured secret, valid
signature, parseable JSON, event header present) appends exactly one
Webhook audit row whose `contribution_id` is NULL, and the handler never
touches the webhooks table afterwards — also on the `pull_request` paths
that find and update a matching contribution. -/
theorem C10_webhook_audit_row_never_linked
    (hmacHex : String → String → String) (s : String) (req : GhRequest)
    (payload : GhPayload) (evt : String) (now : Nat) (db : DB)
    (hs : s ≠ "")
    (hsig : verifyGitHubSignature hmacHex req.rawBody req.signature s = true)
    (hjson : req.json = some payload) (hevent : req.event = some evt) :
    (githubWebhookHandler hmacHex (some s) req now db).2.webhooks =
      db.webhooks ++
        [{ id := db.nextWebhookId, contribution_id := none,
           event_type := evt, payload := req.rawBody,
           action := payload.action, received_at := now }] := by
  simp [githubWebhookHandler, truthyStr, hs, hsig, hjson, hevent]
  split <;> try rfl
  split <;> try rfl
  split <;> try rfl
  split <;> try rfl
  split <;> rfl

/-- Witness for C10: the merged-event delivery of `reqMerged` (which does
find and update a contribution) appends one audit row with
`contribution_id = none`. -/
theorem C10_webhook_audit_row_never_linked_witness :
    (("k" : String) ≠ "" ∧
      verifyGitHubSignature hmacDemo reqMerged.rawBody reqMerged.signature
        "k" = true ∧
      reqMerged.json =
        some { action := some "closed", pull_request := some prMerged } ∧
      reqMerged.event = some "pull_request") ∧
    (githubWebhookHandler hmacDemo (some "k") reqMerged 4 dbC6).2.webhooks =
      dbC6.webhooks ++
        [{ id := dbC6.nextWebhookId, contribution_id := none,
           event_type := "pull_request", payload := reqMerged.rawBody,
           action := some "closed", received_at := 4 }] :=
  ⟨⟨by decide, by decide, by decide, by decide⟩,
    C10_webhook_audit_row_never_linked hmacDemo "k" reqMerged
      { action := some "closed", pull_request := some prMerged }
      "pull_request" 4 dbC6 (by decide) (by decide) (by decide)
      (by decide)⟩

/-! ## Runner exit handling (`executeOpenCodeInBackground`)

Source: `apps/db-api/src/routes/workspaces.ts`, lines 203–300: the part of
the background runner that reacts to the agent exec's exit code (the
earlier prompt build / exec streaming and the later 60-second grace sleep
plus container teardown are outside these definitions). -/

/-- `INSERT INTO workspace_logs (workspace_id, line, stream)`. -/
def appendLog (db : DB) (workspaceId : Nat) (line stream : String) : DB :=
  { db with
      logs := db.logs ++
        [{ id := db.nextLogId, workspace_id := workspaceId,
           line := line, stream := stream }],
      nextLogId := db.nextLogId + 1 }

/-- Digits-run parser (`parseInt` on a regex capture of `\d+`). -/
def parseDigits (l : List Char) : Nat :=
  l.foldl (fun acc c => acc * 10 + (c.toNat - 48)) 0

/-- First match of `/\/pull\/(\d+)/`: the digit run after the first
occurrence of `/pull/` that is followed by at least one digit. -/
def findPullNumber : List Char → Option Nat
  | [] => none
  | c :: rest =>
    let l := c :: rest
    let after := l.drop 6
    if "/pull/".data.isPrefixOf l &&
        (match after with
         | a :: _ => a.isDigit
         | [] => false) then
      some (parseDigits (after.takeWhile Char.isDigit))
    else
      findPullNumber rest

/-- The contribution-upsert block of `executeOpenCodeInBackground`
(`workspaces.ts:230–283`): runs when the re-selected completed workspace
has truthy `issue_id` and `agent_run_id`. -/
def applyContributionUpsert (db1 : DB) (cw : Workspace) (now : Nat) : DB :=
  let iid := cw.issue_id.getD 0
  let arid := cw.agent_run_id.getD 0
  let prUrl := cw.pr_url
  let prNumber := prUrl.bind (fun u => findPullNumber u.data)
  let db2 : DB :=
    match db1.contributions.find? (fun c => c.issue_id == iid) with
    | some ec =>
      if truthyStr prUrl then
        { db1 with
            contributions := updateWhere (fun c => c.id == ec.id)
              (fun c =>
                { c with
                    pr_url := prUrl, pr_number := prNumber,
                    branch_name := cw.branch_name, status := "pr_open",
                    updated_at := now })
              db1.contributions }
      else
        { db1 with
            contributions := updateWhere (fun c => c.id == ec.id)
              (fun c =>
                { c with
                    branch_name := cw.branch_name,
                    status := "pr_open", updated_at := now })
              db1.contributions }
    | none =>
      { db1 with
          contributions := db1.contributions ++
            [{ id := db1.nextContributionId, agent_run_id := arid,
               issue_id := iid,
               pr_url := if truthyStr prUrl then prUrl else none,
               pr_number := prNumber, branch_name := cw.branch_name,
               status := "pr_open", created_at := now, updated_at := now }],
          nextContributionId := db1.nextContributionId + 1 }
  { db2 with
      issues := updateWhere (fun i => i.id == iid)
        (fun i => { i with status := "pr_open" }) db2.issues }

/-- Exit handling of `executeOpenCodeInBackground`
(`workspaces.ts:209–300`). -/
def executeOpenCodeExit (db : DB) (workspaceId : Nat) (exitCode : Nat)
    (now : Nat) : DB :=
  let db0 := appendLog db workspaceId
    (s!"[System] OpenCode execution completed with exit code {exitCode}")
    "stdout"
  if exitCode == 0 then
    let db1 := { db0 with
      workspaces := updateWhere (fun w => w.id == workspaceId)
        (fun w => { w with status := "completed" }) db0.workspaces }
    match db1.workspaces.find? (fun w => w.id == workspaceId) with
    | none => db1
    | some cw =>
      if truthyNum cw.issue_id && truthyNum cw.agent_run_id then
        applyContributionUpsert db1 cw now
      else db1
  else
    { db0 with
        workspaces := updateWhere (fun w => w.id == workspaceId)
          (fun w =>
            { w with
                status := "container_crashed",
                error_message := some
                  { type := "container_crashed",
                    message := s!"OpenCode exited with code {exitCode}",
                    logs := some "See workspace logs for details",
                    timestamp := now } })
          db0.workspaces }

/-- A running workspace spawned without an `agent_run_id` (the spawn body's
`agent_run_id` is optional and defaults to NULL), with a PR URL already
detected in its logs. -/
def wsNoAgentRun : Workspace :=
  { id := 1, agent_id := 1, agent_run_id := none, repository_id := 1,
    issue_id := some 10, container_id := some "c9", status := "running",
    branch_name := some "fix/issue-42", expires_at := some 100,
    created_at := 0,
    pr_url := some "https://github.com/acme/widget/pull/7" }

/-- Store holding `wsNoAgentRun` and its issue. -/
def dbC1 : DB :=
  { workspaces := [wsNoAgentRun], issues := [issueFixing],
    contributions := [], webhooks := [], logs := [] }

/-- C1 counterexample: the agent exec of `wsNoAgentRun` exits with code 0;
the runner marks the workspace `completed`, but because the workspace's
`agent_run_id` is NULL it upserts no contribution and leaves the issue's
status at `fixing` instead of setting it to `pr_open`. -/
theorem C1_counterexample :
    ((executeOpenCodeExit dbC1 1 0 5).workspaces.map (fun w => w.status)) =
      ["completed"] ∧
    (executeOpenCodeExit dbC1 1 0 5).contributions = [] ∧
    ((executeOpenCodeExit dbC1 1 0 5).issues.map (fun i => i.status)) =
      ["fixing"] := by
  decide

/-- C1 (amended): for every workspace whose agent exec finishes with exit
code 0 **and whose `issue_id` and `agent_run_id` are both non-NULL (and
non-zero)**, the runner sets the workspace status to `completed`, upserts
a contribution for the workspace's issue (updating the existing row's
branch/PR/status if one exists for this issue, inserting one otherwise)
with status `pr_open` and the workspace's branch name, and sets the
issue's status to `pr_open`, even when no PR URL was detected; with a NULL
`issue_id` or `agent_run_id` only the `completed` status update happens. -/
theorem C1_exit_zero_completed_upserts (db : DB)
    (wsid iid arid now : Nat) (w : Workspace)
    (hw : db.workspaces.find? (fun x => x.id == wsid) = some w)
    (hiid : w.issue_id = some iid) (hiid0 : iid ≠ 0)
    (harid : w.agent_run_id = some arid) (harid0 : arid ≠ 0) :
    ((executeOpenCodeExit db wsid 0 now).workspaces.find?
        (fun x => x.id == wsid)).map (fun x => x.status) =
      some "completed" ∧
    (∃ c ∈ (executeOpenCodeExit db wsid 0 now).contributions,
      c.issue_id = iid ∧ c.status = "pr_open" ∧
      c.branch_name = w.branch_name) ∧
    (executeOpenCodeExit db wsid 0 now).issues =
      updateWhere (fun i => i.id == iid)
        (fun i => { i with status := "pr_open" }) db.issues := by
  have hpw := List.find?_some hw
  have hfind1 : (updateWhere (fun x => x.id == wsid)
      (fun x => { x with status := "completed" }) db.workspaces).find?
      (fun x => x.id == wsid) = some { w with status := "completed" } := by
    simpa [hpw] using find?_updateWhere (fun x => x.id == wsid)
      (fun x => x.id == wsid) (fun x => { x with status := "completed" })
      (fun a => rfl) db.workspaces w hw
  rcases hfind : db.contributions.find? (fun c => c.issue_id == iid) with
    _ | ec
  · refine ⟨?_, ?_, ?_⟩
    · simp [executeOpenCodeExit, appendLog, applyContributionUpsert,
        hfind1, hiid, harid, truthyNum, hiid0, harid0, hfind]
    · refine ⟨⟨db.nextContributionId, arid, iid,
        if truthyStr w.pr_url then w.pr_url else none,
        w.pr_url.bind (fun u => findPullNumber u.data),
        w.branch_name, "pr_open", now, now⟩, ?_, rfl, rfl, rfl⟩
      simp [executeOpenCodeExit, appendLog, applyContributionUpsert,
        hfind1, hiid, harid, truthyNum, hiid0, harid0, hfind]
    · simp [executeOpenCodeExit, appendLog, applyContributionUpsert,
        hfind1, hiid, harid, truthyNum, hiid0, harid0, hfind]
  · have hec_mem : ec ∈ db.contributions := List.mem_of_find?_eq_some hfind
    have hec_iid : ec.issue_id = iid := by
      simpa using List.find?_some hfind
    refine ⟨?_, ?_, ?_⟩
    · by_cases hurl : truthyStr w.pr_url <;>
        simp [executeOpenCodeExit, appendLog, applyContributionUpsert,
          hfind1, hiid, harid, truthyNum, hiid0, harid0, hfind, hurl]
    · by_cases hurl : truthyStr w.pr_url
      · refine ⟨⟨ec.id, ec.agent_run_id, ec.issue_id, w.pr_url,
          w.pr_url.bind (fun u => findPullNumber u.data),
          w.branch_name, "pr_open", ec.created_at, now⟩, ?_, hec_iid,
          rfl, rfl⟩
        simp [executeOpenCodeExit, appendLog, applyContributionUpsert,
          hfind1, hiid, harid, truthyNum, hiid0, harid0, hfind, hurl]
        simp [updateWhere]
        exact ⟨ec, hec_mem, by simp⟩
      · refine ⟨⟨ec.id, ec.agent_run_id, ec.issue_id, ec.pr_url,
          ec.pr_number, w.branch_name, "pr_open", ec.created_at, now⟩,
          ?_, hec_iid, rfl, rfl⟩
        simp [executeOpenCodeExit, appendLog, applyContributionUpsert,
          hfind1, hiid, harid, truthyNum, hiid0, harid0, hfind, hurl]
        simp [updateWhere]
        exact ⟨ec, hec_mem, by simp⟩
    · by_cases hurl : truthyStr w.pr_url <;>
        simp [executeOpenCodeExit, appendLog, applyContributionUpsert,
          hfind1, hiid, harid, truthyNum, hiid0, harid0, hfind, hurl]

/-- A running workspace with both `issue_id` and `agent_run_id` set and no
PR URL detected. -/
def wsWithAgentRun : Workspace :=
  { id := 1, agent_id := 1, agent_run_id := some 3, repository_id := 1,
    issue_id := some 10, container_id := some "c9", status := "running",
    branch_name := some "fix/issue-42", expires_at := some 100,
    created_at := 0, pr_url := none }

/-- Store holding `wsWithAgentRun`, its issue, and no contributions. -/
def dbC1w : DB :=
  { workspaces := [wsWithAgentRun], issues := [issueFixing],
    contributions := [], webhooks := [], logs := [] }

/-- Witness for the amended C1: exit code 0 on `wsWithAgentRun` (no PR URL
detected) marks it completed, inserts a `pr_open` contribution, and sets
the issue to `pr_open`. -/
theorem C1_exit_zero_completed_upserts_witness :
    (dbC1w.workspaces.find? (fun x => x.id == 1) = some wsWithAgentRun ∧
      wsWithAgentRun.issue_id = some 10 ∧ (10 : Nat) ≠ 0 ∧
      wsWithAgentRun.agent_run_id = some 3 ∧ (3 : Nat) ≠ 0) ∧
    (((executeOpenCodeExit dbC1w 1 0 5).workspaces.find?
        (fun x => x.id == 1)).map (fun x => x.status) = some "completed" ∧
    (∃ c ∈ (executeOpenCodeExit dbC1w 1 0 5).contributions,
      c.issue_id = 10 ∧ c.status = "pr_open" ∧
      c.branch_name = wsWithAgentRun.branch_name) ∧
    (executeOpenCodeExit dbC1w 1 0 5).issues =
      updateWhere (fun i => i.id == 10)
        (fun i => { i with status := "pr_open" }) dbC1w.issues) :=
  ⟨⟨by decide, by decide, by decide, by decide, by decide⟩,
    C1_exit_zero_completed_upserts dbC1w 1 10 3 5 wsWithAgentRun
      (by decide) (by decide) (by decide) (by decide) (by decide)⟩

/-! ## `POST /workspaces/spawn` — branch selection, workspace insertion

Source: `apps/db-api/src/routes/workspaces.ts`, lines 610–707 (steps 3.6
and 4 of the spawn handler; the fork check, Dockerfile generation, image
build and container start that surround them do not touch the inserted
row's branch or expiry and are outside these definitions). -/

/-- `SELECT branch_name, pr_url FROM contributions WHERE issue_id = ? AND
branch_name IS NOT NULL ORDER BY id DESC LIMIT 1`
(`workspaces.ts:611–617`): the matching row with the largest id. -/
def selectRerunContribution (cs : List Contribution) (issueId : Nat) :
    Option Contribution :=
  cs.foldl (fun acc c =>
    if c.issue_id == issueId && c.branch_name.isSome then
      match acc with
      | none => some c
      | some b => if c.id > b.id then some c else some b
    else acc) none

/-- Steps 3.6 and 4 of the spawn handler (`workspaces.ts:610–707`):
determine the branch name (re-use a prior contribution's branch if one
exists — where JavaScript `|| null` also discards an empty-string branch —
else `fix/issue-<N>`), set `expires_at = Date.now() + timeoutMinutes * 60
* 1000`, and insert the workspace row in `building`.  Returns the store
and the inserted row. -/
def spawnCore (db : DB) (agentId : Nat) (agentRunId : Option Nat)
    (repoId issueId issueNumber : Nat) (timeoutMinutes : Option Nat)
    (now : Nat) : DB × Workspace :=
  let existingContribution := selectRerunContribution db.contributions
    issueId
  let existingBranchName : Option String :=
    match existingContribution with
    | some c => if truthyStr c.branch_name then c.branch_name else none
    | none => none
  let tm := timeoutMinutes.getD 60
  let expiresAt := now + tm * 60 * 1000
  let branchName :=
    match existingBranchName with
    | some b => b
    | none => s!"fix/issue-{issueNumber}"
  let ws : Workspace :=
    { id := db.nextWorkspaceId, agent_id := agentId,
      agent_run_id := agentRunId, repository_id := repoId,
      issue_id := some issueId, container_id := none,
      status := "building", branch_name := some branchName,
      base_branch := "main", timeout_minutes := tm,
      expires_at := some expiresAt, created_at := now }
  ({ db with
      workspaces := db.workspaces ++ [ws],
      nextWorkspaceId := db.nextWorkspaceId + 1 }, ws)

/-- A prior contribution whose branch name is the empty string — non-NULL
for the SQL `IS NOT NULL` filter, falsy for JavaScript. -/
def contribEmptyBranch : Contribution :=
  { id := 1, agent_run_id := 1, issue_id := 10, pr_url := none,
    pr_number := none, branch_name := some "", status := "pr_open",
    created_at := 0, updated_at := 0 }

/-- Store holding `contribEmptyBranch`. -/
def dbC9 : DB :=
  { workspaces := [], issues := [issueFixing],
    contributions := [contribEmptyBranch], webhooks := [], logs := [] }

/-- C9 counterexample: the prior contribution for issue 10 has the
non-null branch name `""`, yet the spawned workspace's branch is
`fix/issue-42`, not that prior branch name. -/
theorem C9_counterexample :
    contribEmptyBranch.branch_name = some "" ∧
    selectRerunContribution dbC9.contributions 10 =
      some contribEmptyBranch ∧
    (spawnCore dbC9 1 none 1 10 42 none 0).2.branch_name =
      some "fix/issue-42" := by
  refine ⟨rfl, by decide, ?_⟩
  decide

/-- C9 (amended): the spawned workspace's branch name is the branch name
of the latest contribution for the issue whose branch is non-null **and
non-empty**; when no such usable branch exists (no contribution, or a
branch equal to the empty string, which `|| null` discards) the branch is
`fix/issue-<N>`. -/
theorem C9_spawn_branch_reuse (db : DB) (agentId : Nat)
    (agentRunId : Option Nat) (repoId issueId issueNumber : Nat)
    (tm : Option Nat) (now : Nat) :
    (∀ c b, selectRerunContribution db.contributions issueId = some c →
      c.branch_name = some b → b ≠ "" →
      (spawnCore db agentId agentRunId repoId issueId issueNumber tm
        now).2.branch_name = some b) ∧
    (selectRerunContribution db.contributions issueId = none →
      (spawnCore db agentId agentRunId repoId issueId issueNumber tm
        now).2.branch_name = some (s!"fix/issue-{issueNumber}")) ∧
    (∀ c, selectRerunContribution db.contributions issueId = some c →
      c.branch_name = some "" →
      (spawnCore db agentId agentRunId repoId issueId issueNumber tm
        now).2.branch_name = some (s!"fix/issue-{issueNumber}")) := by
  refine ⟨?_, ?_, ?_⟩
  · intro c b hc hb hne
    simp [spawnCore, hc, hb, truthyStr, hne]
  · intro hc
    simp [spawnCore, hc]
  · intro c hc hb
    simp [spawnCore, hc, hb, truthyStr]

/-- Witness for the amended C9: `dbC6` holds a contribution for issue 10
with branch `fix/issue-42`; spawning reuses it exactly. -/
theorem C9_spawn_branch_reuse_witness :
    (selectRerunContribution dbC6.contributions 10 = some contribOpen ∧
      contribOpen.branch_name = some "fix/issue-42" ∧
      ("fix/issue-42" : String) ≠ "") ∧
    (spawnCore dbC6 1 none 1 10 42 none 0).2.branch_name =
      some "fix/issue-42" :=
  ⟨⟨by decide, by decide, by decide⟩,
    (C9_spawn_branch_reuse dbC6 1 none 1 10 42 none 0).1 contribOpen
      "fix/issue-42" (by decide) (by decide) (by decide)⟩

/-- Modelled from the spec: no code under `src/` implements the
running→timeout transition — the repository only declares `"timeout"` in
the `WorkspaceError` union (`workspaces.ts:338`, with its `duration`
detail) and consumes the `'timeout'` status in the browser UI.  Spec
§4.3/§7: when `now > expires_at` while `running`, the workspace
transitions to `timeout`, its container is force-removed, and the
structured error records the elapsed duration.  The sweep returns the
store and the container ids handed to the forced remove. -/
def timeoutSweep (db : DB) (now : Nat) : DB × List String :=
  let expired := fun (w : Workspace) => w.status == "running" &&
    (match w.expires_at with
     | some e => decide (e < now)
     | none => false)
  ({ db with
      workspaces := updateWhere expired
        (fun w =>
          { w with
              status := "timeout",
              error_message := some
                { type := "timeout", message := "Workspace timed out",
                  duration := some (now - w.created_at),
                  timestamp := now } })
        db.workspaces },
   (db.workspaces.filter expired).filterMap (fun w => w.container_id))

/-- C2: `expires_at` is set at spawn to the creation time plus
`timeout_minutes` (source, `workspaces.ts:683–699`), and — per the
spec-modelled sweep `timeoutSweep`, since no source code implements the
transition — every `running` workspace whose `expires_at` lies before
`now` transitions to `timeout` with a structured error whose `duration`
is the elapsed time since creation, and its container id is handed to the
forced remove. -/
theorem C2_spawn_expiry_and_timeout_transition (db : DB) (agentId : Nat)
    (agentRunId : Option Nat) (repoId issueId issueNumber : Nat)
    (tm : Option Nat) (now snow : Nat) (wsid e : Nat) (w : Workspace)
    (hw : db.workspaces.find? (fun x => x.id == wsid) = some w)
    (hrun : w.status = "running") (hexp : w.expires_at = some e)
    (hlt : e < snow) :
    (spawnCore db agentId agentRunId repoId issueId issueNumber tm
      now).2.created_at = now ∧
    (spawnCore db agentId agentRunId repoId issueId issueNumber tm
      now).2.expires_at = some (now + tm.getD 60 * 60 * 1000) ∧
    ((timeoutSweep db snow).1.workspaces.find? (fun x => x.id == wsid)).map
      (fun x => (x.status, x.error_message)) =
      some ("timeout", some
        { type := "timeout", message := "Workspace timed out",
          duration := some (snow - w.created_at), timestamp := snow }) ∧
    (∀ cid, w.container_id = some cid → cid ∈ (timeoutSweep db snow).2) := by
  have hwexp : (w.status == "running" &&
      (match w.expires_at with
       | some e => decide (e < snow)
       | none => false)) = true := by
    simp [hrun, hexp, hlt]
  refine ⟨rfl, rfl, ?_, ?_⟩
  · have h := find?_updateWhere (fun x => x.id == wsid)
      (fun w => w.status == "running" &&
        (match w.expires_at with
         | some e => decide (e < snow)
         | none => false))
      (fun w =>
        { w with
            status := "timeout",
            error_message := some
              { type := "timeout", message := "Workspace timed out",
                duration := some (snow - w.created_at),
                timestamp := snow } })
      (fun a => rfl) db.workspaces w hw
    simp only [timeoutSweep]
    rw [h]
    simp [hwexp]
  · intro cid hcid
    have hmem : w ∈ db.workspaces := List.mem_of_find?_eq_some hw
    simp only [timeoutSweep]
    exact List.mem_filterMap.mpr ⟨w,
      List.mem_filter.mpr ⟨hmem, hwexp⟩, hcid⟩

/-- An expired running workspace. -/
def wsExpired : Workspace :=
  { id := 1, agent_id := 1, agent_run_id := some 1, repository_id := 1,
    issue_id := some 10, container_id := some "cx", status := "running",
    branch_name := some "fix/issue-42", expires_at := some 10,
    created_at := 2 }

/-- Store holding `wsExpired`. -/
def dbC2 : DB :=
  { workspaces := [wsExpired], issues := [issueFixing],
    contributions := [], webhooks := [], logs := [] }

/-- Witness for C2: spawning at time 7 with a 5-minute timeout, and
sweeping `dbC2` at time 11 (past `wsExpired`'s expiry 10). -/
theorem C2_spawn_expiry_and_timeout_transition_witness :
    (dbC2.workspaces.find? (fun x => x.id == 1) = some wsExpired ∧
      wsExpired.status = "running" ∧ wsExpired.expires_at = some 10 ∧
      (10 : Nat) < 11) ∧
    ((spawnCore dbC2 1 none 1 10 42 (some 5) 7).2.created_at = 7 ∧
    (spawnCore dbC2 1 none 1 10 42 (some 5) 7).2.expires_at =
      some (7 + (some 5).getD 60 * 60 * 1000) ∧
    ((timeoutSweep dbC2 11).1.workspaces.find? (fun x => x.id == 1)).map
      (fun x => (x.status, x.error_message)) =
      some ("timeout", some
        { type := "timeout", message := "Workspace timed out",
          duration := some (11 - wsExpired.created_at), timestamp := 11 }) ∧
    (∀ cid, wsExpired.container_id = some cid →
      cid ∈ (timeoutSweep dbC2 11).2)) :=
  ⟨⟨by decide, by decide, by decide, by decide⟩,
    C2_spawn_expiry_and_timeout_transition dbC2 1 none 1 10 42 (some 5) 7
      11 1 10 wsExpired (by decide) (by decide) (by decide) (by decide)⟩

/-! ## NDJSON build stream (`buildImageFromDockerfile`)

Source: `packages/shared/src/docker/index.ts`, lines 322–392, plus the
progress-log ring kept by the spawn handler
(`apps/db-api/src/routes/workspaces.ts:856–895`).  Each NDJSON line that
parses as JSON is modelled as a `BuildMsg` record of the fields the client
reads (unparsable lines are skipped by the source and are simply absent
here); the stream is the list of those lines, assuming read chunks split
on line boundaries.  JavaScript truthiness of the checked fields is
modelled with `truthyStr`. -/

/-- A character the `[a-f0-9]` class accepts. -/
def isHexLower (c : Char) : Bool :=
  c.isDigit || ('a' ≤ c && c ≤ 'f')

/-- First match of `/Successfully built ([a-f0-9]+)/`: the hex run after
the first occurrence of the literal that is followed by at least one hex
character. -/
def extractBuiltId : List Char → Option (List Char)
  | [] => none
  | c :: rest =>
    let l := c :: rest
    let after := l.drop "Successfully built ".length
    if "Successfully built ".data.isPrefixOf l &&
        (match after with
         | a :: _ => isHexLower a
         | [] => false) then
      some (after.takeWhile isHexLower)
    else extractBuiltId rest

/-- One parsed NDJSON build line (the fields the client reads; for
`errorDetail` the outer `Option` is the presence of the object, the inner
one its `message` field). -/
structure BuildMsg where
  stream : Option String
  status : Option String
  errorDetail : Option (Option String)
  auxID : Option String
deriving DecidableEq, Repr

/-- The mutable state of the build-stream loop: progress strings handed to
the caller's sink in order, `imageId`, `lastError`. -/
structure BuildAcc where
  progress : List String
  imageId : String
  lastError : String
deriving DecidableEq, Repr

/-- One iteration of the `onData` line loop (`docker/index.ts:343–367`):
`if (msg.stream) … else if (msg.status) … else if (msg.errorDetail) …
else if (msg.aux?.ID) …`. -/
def buildStep (acc : BuildAcc) (m : BuildMsg) : BuildAcc :=
  if truthyStr m.stream then
    let trimmed := (m.stream.getD "").trim
    if trimmed ≠ "" then
      let acc2 := { acc with progress := acc.progress ++ [trimmed] }
      match extractBuiltId trimmed.data with
      | some id => { acc2 with imageId := String.mk id }
      | none => acc2
    else acc
  else if truthyStr m.status then
    { acc with progress := acc.progress ++ [m.status.getD ""] }
  else if m.errorDetail.isSome then
    { acc with lastError :=
        match m.errorDetail with
        | some (some msg) => if msg ≠ "" then msg else "Build error"
        | _ => "Build error" }
  else if truthyStr m.auxID then
    { acc with imageId := m.auxID.getD "" }
  else acc

/-- A line with a truthy `aux.ID`, as the post-stream fallback scan of the
response body sees it (`docker/index.ts:377–389`, a plain `if` with no
else-chain). -/
def lineAuxFallback (m : BuildMsg) : Option String :=
  if truthyStr m.auxID then m.auxID else none

/-- `buildImageFromDockerfile`'s result on a stream of parsed lines
(`docker/index.ts:322–392`): run the line loop; throw the last
`errorDetail` message if any was seen; otherwise return the image id, or
the last `aux.ID` of the body as fallback, or the image name. -/
def buildImageResult (lines : List BuildMsg) (imageName : String) :
    Except String String :=
  let acc := lines.foldl buildStep
    { progress := [], imageId := "", lastError := "" }
  if acc.lastError ≠ "" then .error acc.lastError
  else if acc.imageId ≠ "" then .ok acc.imageId
  else
    match (lines.filterMap lineAuxFallback).getLast? with
    | some id => .ok id
    | none => .ok imageName

/-- The progress strings the caller's sink receives. -/
def buildProgressOf (lines : List BuildMsg) : List String :=
  (lines.foldl buildStep
    { progress := [], imageId := "", lastError := "" }).progress

/-- What one line contributes to `lastError` (read off the else-chain). -/
def lineError (m : BuildMsg) : Option String :=
  if truthyStr m.stream then none
  else if truthyStr m.status then none
  else if m.errorDetail.isSome then
    some (match m.errorDetail with
      | some (some msg) => if msg ≠ "" then msg else "Build error"
      | _ => "Build error")
  else none

/-- What one line contributes to the sink (read off the else-chain). -/
def lineProgress (m : BuildMsg) : Option String :=
  if truthyStr m.stream then
    if (m.stream.getD "").trim ≠ "" then some ((m.stream.getD "").trim)
    else none
  else if truthyStr m.status then some (m.status.getD "")
  else none

/-- What one line contributes to `imageId` in the main loop (read off the
else-chain). -/
def lineImageId (m : BuildMsg) : Option String :=
  if truthyStr m.stream then
    if (m.stream.getD "").trim ≠ "" then
      (extractBuiltId (m.stream.getD "").trim.data).map String.mk
    else none
  else if truthyStr m.status then none
  else if m.errorDetail.isSome then none
  else if truthyStr m.auxID then m.auxID
  else none

/-- The spawn handler's progress ring (`workspaces.ts:866–873`):
push, then shift once when over 100 entries. -/
def pushCapped (logs : List String) (line : String) : List String :=
  if 100 < (logs ++ [line]).length then (logs ++ [line]).drop 1
  else logs ++ [line]

/-- The `buildLogs` array the spawn handler accumulates. -/
def spawnBuildLogs (ps : List String) : List String :=
  ps.foldl pushCapped []

theorem getLast?_getD_cons {α : Type} (l : List α) :
    ∀ a d : α, ((a :: l).getLast?).getD d = (l.getLast?).getD a := by
  induction l with
  | nil => intro a d; rfl
  | cons b t ih =>
    intro a d
    rw [List.getLast?_cons_cons, ih b d, ih b a]

theorem buildStep_lastError (acc : BuildAcc) (m : BuildMsg) :
    (buildStep acc m).lastError = (lineError m).getD acc.lastError := by
  by_cases h1 : truthyStr m.stream
  · by_cases h2 : (m.stream.getD "").trim = ""
    · simp [buildStep, lineError, h1, h2]
    · rcases h3 : extractBuiltId ((m.stream.getD "").trim).data with _ | id <;>
        simp [buildStep, lineError, h1, h2, h3]
  · by_cases h2 : truthyStr m.status
    · simp [buildStep, lineError, h1, h2]
    · by_cases h3 : m.errorDetail.isSome
      · simp [buildStep, lineError, h1, h2, h3]
      · by_cases h4 : truthyStr m.auxID <;>
          simp [buildStep, lineError, h1, h2, h3, h4]

theorem buildStep_imageId (acc : BuildAcc) (m : BuildMsg) :
    (buildStep acc m).imageId = (lineImageId m).getD acc.imageId := by
  by_cases h1 : truthyStr m.stream
  · by_cases h2 : (m.stream.getD "").trim = ""
    · simp [buildStep, lineImageId, h1, h2]
    · rcases h3 : extractBuiltId ((m.stream.getD "").trim).data with _ | id <;>
        simp [buildStep, lineImageId, h1, h2, h3]
  · by_cases h2 : truthyStr m.status
    · simp [buildStep, lineImageId, h1, h2]
    · by_cases h3 : m.errorDetail.isSome
      · simp [buildStep, lineImageId, h1, h2, h3]
      · by_cases h4 : truthyStr m.auxID
        · rcases ha : m.auxID with _ | a
          · rw [ha] at h4
            simp [truthyStr] at h4
          · rw [ha] at h4
            simp [buildStep, lineImageId, h1, h2, h3, h4, ha]
        · simp [buildStep, lineImageId, h1, h2, h3, h4]

theorem buildStep_progress (acc : BuildAcc) (m : BuildMsg) :
    (buildStep acc m).progress = acc.progress ++ (lineProgress m).toList := by
  by_cases h1 : truthyStr m.stream
  · by_cases h2 : (m.stream.getD "").trim = ""
    · simp [buildStep, lineProgress, h1, h2]
    · rcases h3 : extractBuiltId ((m.stream.getD "").trim).data with _ | id <;>
        simp [buildStep, lineProgress, h1, h2, h3]
  · by_cases h2 : truthyStr m.status
    · simp [buildStep, lineProgress, h1, h2]
    · by_cases h3 : m.errorDetail.isSome
      · simp [buildStep, lineProgress, h1, h2, h3]
      · by_cases h4 : truthyStr m.auxID <;>
          simp [buildStep, lineProgress, h1, h2, h3, h4]

/-- A left fold whose step writes `f m` over a field when present: the
final field value is the last present `f`, else the initial value. -/
theorem foldl_field_lastOf {γ β α : Type} (step : γ → β → γ) (g : γ → α)
    (f : β → Option α)
    (hstep : ∀ acc m, g (step acc m) = (f m).getD (g acc)) :
    ∀ (lines : List β) (acc : γ),
      g (lines.foldl step acc) = ((lines.filterMap f).getLast?).getD (g acc) := by
  intro lines
  induction lines with
  | nil => intro acc; simp
  | cons m ms ih =>
    intro acc
    rw [List.foldl_cons, ih, hstep]
    rcases h : f m with _ | e
    · simp [List.filterMap_cons, h]
    · simp [List.filterMap_cons, h, getLast?_getD_cons]

theorem foldl_buildStep_progress :
    ∀ (lines : List BuildMsg) (acc : BuildAcc),
      (lines.foldl buildStep acc).progress =
        acc.progress ++ lines.filterMap lineProgress := by
  intro lines
  induction lines with
  | nil => intro acc; simp
  | cons m ms ih =>
    intro acc
    rw [List.foldl_cons, ih, buildStep_progress]
    rcases h : lineProgress m with _ | p <;>
      simp [List.filterMap_cons, h]

theorem extractBuiltId_ne_nil :
    ∀ (l r : List Char), extractBuiltId l = some r → r ≠ [] := by
  intro l
  induction l with
  | nil => intro r h; simp [extractBuiltId] at h
  | cons c rest ih =>
    intro r h
    simp only [extractBuiltId] at h
    rcases hA : (c :: rest).drop "Successfully built ".length with _ | ⟨a, t⟩ <;>
      rw [hA] at h
    · simp at h
      exact ih r h
    · by_cases hp : "Successfully built ".data.isPrefixOf (c :: rest)
      · by_cases hx : isHexLower a
        · rw [if_pos (by simp [hp, hx])] at h
          injection h with h
          subst h
          simp [List.takeWhile_cons, hx]
        · rw [if_neg (by simp [hx])] at h
          exact ih r h
      · rw [if_neg (by simp [hp])] at h
        exact ih r h

theorem lineImageId_ne_empty (m : BuildMsg) (i : String)
    (h : lineImageId m = some i) : i ≠ "" := by
  by_cases h1 : truthyStr m.stream
  · by_cases h2 : (m.stream.getD "").trim = ""
    · simp [lineImageId, h1, h2] at h
    · rcases h3 : extractBuiltId ((m.stream.getD "").trim).data with _ | id <;>
        rw [lineImageId] at h <;> rw [if_pos h1] at h <;>
        rw [if_pos (by simp [h2])] at h <;> rw [h3] at h
      · simp at h
      · simp at h
        have hne := extractBuiltId_ne_nil _ _ h3
        subst h
        intro hcon
        exact hne (by simpa [String.ext_iff] using hcon)
  · by_cases h2 : truthyStr m.status
    · simp [lineImageId, h1, h2] at h
    · by_cases h3 : m.errorDetail.isSome
      · simp [lineImageId, h1, h2, h3] at h
      · by_cases h4 : truthyStr m.auxID
        · rcases ha : m.auxID with _ | a
          · rw [ha] at h4
            simp [truthyStr] at h4
          · rw [ha] at h4
            simp [lineImageId, h1, h2, h3, h4, ha] at h
            subst h
            simpa [truthyStr] using h4
        · simp [lineImageId, h1, h2, h3, h4] at h

theorem lineError_ne_empty (m : BuildMsg) (e : String)
    (h : lineError m = some e) : e ≠ "" := by
  by_cases h1 : truthyStr m.stream
  · simp [lineError, h1] at h
  · by_cases h2 : truthyStr m.status
    · simp [lineError, h1, h2] at h
    · by_cases h3 : m.errorDetail.isSome
      · rcases hd : m.errorDetail with _ | md
        · rw [hd] at h3; simp at h3
        · rcases md with _ | msg
          · simp [lineError, h1, h2, h3, hd] at h
            subst h
            decide
          · by_cases hm : msg = ""
            · simp [lineError, h1, h2, h3, hd, hm] at h
              subst h
              decide
            · simp [lineError, h1, h2, h3, hd, hm] at h
              subst h
              exact hm
      · simp [lineError, h1, h2, h3] at h

theorem foldl_pushCapped (ps : List String) :
    ∀ acc : List String, acc.length ≤ 100 →
      ps.foldl pushCapped acc = (acc ++ ps).drop ((acc ++ ps).length - 100) := by
  induction ps with
  | nil =>
    intro acc h
    simp [Nat.sub_eq_zero_of_le (by simpa using h)]
  | cons p ps ih =>
    intro acc hle
    rw [List.foldl_cons]
    by_cases hc : 100 < (acc ++ [p]).length
    · have hacc : acc.length = 100 := by
        simp at hc
        omega
      have hform : pushCapped acc p = (acc ++ [p]).drop 1 := by
        rw [pushCapped, if_pos hc]
      have hlen : (pushCapped acc p).length ≤ 100 := by
        rw [hform]
        simp
        exact hle
      rw [ih (pushCapped acc p) hlen, hform]
      have h1 : ((acc ++ [p]) ++ ps).drop 1 = (acc ++ [p]).drop 1 ++ ps :=
        List.drop_append_of_le_length (by simp)
      rw [← h1, List.drop_drop]
      have h2 : (acc ++ [p]) ++ ps = acc ++ p :: ps := by simp
      rw [h2]
      congr 1
      simp [hacc]
      omega
    · have hform : pushCapped acc p = acc ++ [p] := by
        rw [pushCapped, if_neg hc]
      have hlen : (pushCapped acc p).length ≤ 100 := by
        rw [hform]
        simp at hc ⊢
        omega
      rw [ih (pushCapped acc p) hlen, hform]
      have h2 : (acc ++ [p]) ++ ps = acc ++ p :: ps := by simp
      rw [h2]

theorem spawnBuildLogs_eq (ps : List String) :
    spawnBuildLogs ps = ps.drop (ps.length - 100) := by
  simpa [spawnBuildLogs] using foldl_pushCapped ps [] (by simp)

set_option maxRecDepth 4000 in
/-- C8: on a build stream, (1) if a line carries an `errorDetail` (and is
an error line, i.e. carries no truthy `stream`/`status` — Docker error
lines carry only `error`/`errorDetail`), the build fails with the last
such line's message no matter what `stream` progress lines surround it;
(2) with no error line, the build succeeds with the image id carried by
the latest `aux.ID` or successful-build marker, or, with neither, falls
back to the last `aux.ID` of the body and then to the image name; (3) the
progress strings handed to the caller's sink are exactly the non-empty
trimmed `stream` texts and `status` texts in order; (4) the spawn
handler's capped `buildLogs` ring attaches the last 50 progress lines to a
build error. -/
theorem C8_build_stream_semantics (lines : List BuildMsg)
    (imageName : String) (ps : List String) :
    (∀ (pre post : List BuildMsg) (m : BuildMsg) (e : String),
      lines = pre ++ m :: post → lineError m = some e →
      (∀ m' ∈ post, lineError m' = none) →
      buildImageResult lines imageName = .error e) ∧
    ((∀ m ∈ lines, lineError m = none) →
      (∀ id, (lines.filterMap lineImageId).getLast? = some id →
        buildImageResult lines imageName = .ok id) ∧
      (lines.filterMap lineImageId = [] →
        lines.filterMap lineAuxFallback = [] →
        buildImageResult lines imageName = .ok imageName)) ∧
    buildProgressOf lines = lines.filterMap lineProgress ∧
    (spawnBuildLogs ps).drop ((spawnBuildLogs ps).length - 50) =
      ps.drop (ps.length - 50) := by
  have hLE := foldl_field_lastOf buildStep (fun a => a.lastError)
    lineError buildStep_lastError lines
    { progress := [], imageId := "", lastError := "" }
  have hII := foldl_field_lastOf buildStep (fun a => a.imageId)
    lineImageId buildStep_imageId lines
    { progress := [], imageId := "", lastError := "" }
  refine ⟨?_, ?_, ?_, ?_⟩
  · intro pre post m e hl he hpost
    have hfm : lines.filterMap lineError =
        pre.filterMap lineError ++ [e] := by
      subst hl
      simp [List.filterMap_append, List.filterMap_cons, he,
        List.filterMap_eq_nil_iff.mpr hpost]
    have haccErr : (lines.foldl buildStep
        { progress := [], imageId := "", lastError := "" }).lastError =
        e := by
      rw [hLE, hfm, List.getLast?_concat]
      rfl
    have hne := lineError_ne_empty m e he
    simp [buildImageResult, haccErr, hne]
  · intro hnoerr
    have haccErr : (lines.foldl buildStep
        { progress := [], imageId := "", lastError := "" }).lastError =
        "" := by
      rw [hLE, List.filterMap_eq_nil_iff.mpr hnoerr]
      rfl
    constructor
    · intro id hlast
      have hid : (lines.foldl buildStep
          { progress := [], imageId := "", lastError := "" }).imageId =
          id := by
        rw [hII, hlast]
        rfl
      have hmem : id ∈ lines.filterMap lineImageId := by
        obtain ⟨hne, heq⟩ := List.mem_getLast?_eq_getLast
          (l := lines.filterMap lineImageId) (by rw [hlast]; rfl)
        subst heq
        exact List.getLast_mem hne
      obtain ⟨m, hm, hfm⟩ := List.mem_filterMap.mp hmem
      have hidne := lineImageId_ne_empty m id hfm
      simp [buildImageResult, haccErr, hid, hidne]
    · intro hids hfall
      have hid : (lines.foldl buildStep
          { progress := [], imageId := "", lastError := "" }).imageId =
          "" := by
        rw [hII, hids]
        rfl
      simp [buildImageResult, haccErr, hid, hfall]
  · rw [buildProgressOf, foldl_buildStep_progress]
    rfl
  · rw [spawnBuildLogs_eq, List.length_drop, List.drop_drop]
    congr 1
    omega

/-- A `stream` progress line. -/
def streamMsg : BuildMsg :=
  { stream := some "Step 1/3 : FROM node", status := none,
    errorDetail := none, auxID := none }

/-- An `errorDetail` line with message `boom`. -/
def errMsg : BuildMsg :=
  { stream := none, status := none, errorDetail := some (some "boom"),
    auxID := none }

/-- Witness for C8: a stream with one progress line followed by an
`errorDetail` line fails with `boom` despite the earlier progress. -/
theorem C8_build_stream_semantics_witness :
    (([streamMsg, errMsg] : List BuildMsg) =
        [streamMsg] ++ errMsg :: [] ∧
      lineError errMsg = some "boom" ∧
      (∀ m' ∈ ([] : List BuildMsg), lineError m' = none)) ∧
    buildImageResult [streamMsg, errMsg] "uc-demo:1" = .error "boom" :=
  ⟨⟨rfl, by decide, by simp⟩,
    (C8_build_stream_semantics [streamMsg, errMsg] "uc-demo:1" []).1
      [streamMsg] [] errMsg "boom" rfl (by decide) (by simp)⟩
